import Mathlib

/-!
Shallow embedding of graftcp-local's connection-correlation and relay core
(`graftcp-local/local.go`), together with theorems checking the
natural-language specification against it.

Conventions used throughout:
* Go `nil`-able pointers/interfaces become `Option`.
* The dialer type is an abstract type parameter `D`; a `Local D` stores the
  dialers exactly as the Go struct does (nil-able fields).
* `modeT` is an `int` in Go, so it is embedded as `Nat` (the Go program
  only ever produces the five constants below, but the type does not
  enforce that, and `proxySelector` has a `default:` branch for the rest).
* External collaborators that live in other files of the repository
  (the PID↔address registry, the kernel inode inspector) enter as explicit
  parameters or are modelled from the spec, as marked on each definition.
* Real I/O (sockets, sleeping, goroutines) is replaced by explicit event
  traces so that retry counts, sleeps and shutdown ordering can be stated.
-/

namespace Graftcp

/-- Go `type modeT int`: embedded as `Nat` since Go's `int` admits values
outside the five named constants and `proxySelector` has a `default:`
branch for them. -/
abbrev modeT := Nat

/-- `AutoSelectMode modeT = iota` (= 0, also the Go zero value of `modeT`). -/
def AutoSelectMode : modeT := 0

/-- `RandomSelectMode` (= 1). -/
def RandomSelectMode : modeT := 1

/-- `OnlySocks5Mode` (= 2). -/
def OnlySocks5Mode : modeT := 2

/-- `OnlyHttpProxyMode` (= 3). -/
def OnlyHttpProxyMode : modeT := 3

/-- `DirectMode` (= 4). -/
def DirectMode : modeT := 4

/-- The `Local` struct of `local.go`, restricted to the fields the
correlation/selection/relay core reads: the three nil-able dialers and the
selection mode.  The listener address fields and the FIFO file descriptor
are pure I/O handles and are not needed by any claim. -/
structure Local (D : Type) where
  socks5Dialer : Option D
  httpProxyDialer : Option D
  directDialer : Option D
  selectMode : modeT
deriving DecidableEq

/-- `NewLocal`: the dialer-construction outcome is passed in as `Option`s
(socket-address resolution and proxy-client construction are external I/O);
`local.directDialer = proxy.Direct` is always set, and `selectMode` is left
at its Go zero value, which is `AutoSelectMode` (= 0). -/
def NewLocal {D : Type} (socks5Dialer httpProxyDialer : Option D) (direct : D) : Local D :=
  { socks5Dialer := socks5Dialer
    httpProxyDialer := httpProxyDialer
    directDialer := some direct
    selectMode := AutoSelectMode }

/-- `func (l *Local) SetSelectMode(mode string)`: a `switch` on the five
literal strings with no `default:` case, so an unrecognized string leaves
`l.selectMode` unchanged. -/
def SetSelectMode {D : Type} (l : Local D) (mode : String) : Local D :=
  if mode = "auto" then { l with selectMode := AutoSelectMode }
  else if mode = "random" then { l with selectMode := RandomSelectMode }
  else if mode = "only_http_proxy" then { l with selectMode := OnlyHttpProxyMode }
  else if mode = "only_socks5" then { l with selectMode := OnlySocks5Mode }
  else if mode = "direct" then { l with selectMode := DirectMode }
  else l

/-- `func (l *Local) proxySelector() proxy.Dialer`.  The `l == nil` receiver
check cannot arise for a Lean value and is dropped.  `rnd` stands for the
value drawn from `rand.Intn(2)` in the `RandomSelectMode` branch (the one
source of randomness); the Go code compares it to `0`, embedded here as
`rnd % 2 == 0` for an arbitrary `Nat` draw. -/
def proxySelector {D : Type} (l : Local D) (rnd : Nat) : Option D :=
  if l.selectMode = AutoSelectMode then
    if l.socks5Dialer.isSome then l.socks5Dialer
    else if l.httpProxyDialer.isSome then l.httpProxyDialer
    else l.directDialer
  else if l.selectMode = RandomSelectMode then
    if l.socks5Dialer.isSome && l.httpProxyDialer.isSome then
      if rnd % 2 == 0 then l.socks5Dialer else l.httpProxyDialer
    else if l.socks5Dialer.isSome then l.socks5Dialer
    else l.httpProxyDialer
  else if l.selectMode = OnlySocks5Mode then l.socks5Dialer
  else if l.selectMode = OnlyHttpProxyMode then l.httpProxyDialer
  else if l.selectMode = DirectMode then l.directDialer
  else l.socks5Dialer

example : proxySelector (SetSelectMode (NewLocal (D := Nat) none none 0) "bogus") 0 = some 0 := by
  decide

example : proxySelector (SetSelectMode (NewLocal (D := Nat) (some 7) none 0) "only_socks5") 1 = some 7 := by
  decide

/-! ### FIFO record decoder (`Local.UpdateProcessAddrInfo`, per-line logic)

Lines are modelled as `List Char`.  `splitCh` is Go's
`strings.Split(line, ":")`: split at every separator occurrence, keeping
empty fields, so it always yields (number of separators) + 1 fields. -/

/-- Go `strings.Split(l, sep)` for a one-character separator: every
occurrence of `sep` delimits a field, empty fields included. -/
def splitCh (sep : Char) : List Char → List (List Char)
  | [] => [[]]
  | c :: rest =>
    if c = sep then [] :: splitCh sep rest
    else
      match splitCh sep rest with
      | [] => [[c]]
      | f :: fs => (c :: f) :: fs

/-- The per-line decoding step of `Local.UpdateProcessAddrInfo`: split the
line on `':'`; fewer than 3 fields is malformed (`none`, the Go code logs
and `continue`s); more than 3 fields is the IPv6 form (last field = pid,
second-to-last = port, destination IP = prefix of the line of length
`len(line) - 2 - len(pid) - len(port)`, address = `"[" + ip + "]:" + port`);
exactly 3 fields is the IPv4 form (`addr = s[0] + ":" + s[1]`, `pid = s[2]`).
Returns `some (addr, pid)`. -/
def decodeLine (line : List Char) : Option (List Char × List Char) :=
  let s := splitCh ':' line
  if s.length < 3 then none
  else if s.length > 3 then
    let pid := s.getD (s.length - 1) []
    let destPort := s.getD (s.length - 2) []
    let destIP := line.take (line.length - 2 - pid.length - destPort.length)
    some (('[' :: destIP) ++ (']' :: ':' :: destPort), pid)
  else
    some ((s.getD 0 []) ++ (':' :: s.getD 1 []), s.getD 2 [])

example : decodeLine ("127.0.0.1:8080:4321".data) = some ("127.0.0.1:8080".data, "4321".data) := by
  decide

example : decodeLine ("::1:8080:4321".data) = some ("[::1]:8080".data, "4321".data) := by
  decide

example : decodeLine ("1.2.3.4:80".data) = none := by decide

/-! ### Connection correlator (`getPidByAddr`)

The kernel inode inspector (`getInodeByAddrs`) and the inode-membership
test (`hasIncludeInode`) live outside `local.go` and enter as an
environment.  Sleeping and the single inode lookup are recorded in an
event trace so that retry counts can be stated.  The registry may change
between attempts (concurrent decoder insertions), so it enters as a
snapshot per attempt index. -/

/-- Observable events of one `getPidByAddr` run. -/
inductive Event
  | inodeLookup
  | rangeScan
  | sleepMs (ms : Nat)
  | deletePid (pid : String)
deriving DecidableEq

/-- Environment of a `getPidByAddr` run: the two external functions it
calls and the registry contents seen by attempt `i` (`regs i`). -/
structure CorrEnv where
  getInodeByAddrs : String → String → Bool → Option Nat
  hasIncludeInode : String → Nat → Bool
  regs : Nat → List (String × String)

/-- Modelled from the spec: `RangePidAddr` (registry iteration, defined
outside `local.go`) visits the registered `(pid, addr)` entries in order
and stops as soon as the visitor returns false.  The visitor passed by
`getPidByAddr` assigns `pid, destAddr := p, a` and stops at the first
entry whose PID owns the inode; entries that do not match leave the
captured `(pid, destAddr)` state `st` unchanged. -/
def RangePidAddr (env : CorrEnv) (inode : Nat) (st : String × String) :
    List (String × String) → String × String
  | [] => st
  | (p, a) :: rest =>
    if env.hasIncludeInode p inode then (p, a)
    else RangePidAddr env inode st rest

/-- Modelled from the spec: `DeletePidAddr pid` (defined outside
`local.go`) removes the entry for `pid` from the registry map. -/
def DeletePidAddr (pid : String) (reg : List (String × String)) : List (String × String) :=
  reg.filter (fun e => e.1 != pid)

/-- The `for i := 0; i < 3; i++` loop of `getPidByAddr`: scan the registry
snapshot of the current attempt; break as soon as `pid != ""`; otherwise
sleep 20ms and try again (the sleep also runs after the final failed
attempt, since the loop body has no early exit around it).  `att` is the
loop index `i`, `fuel` the remaining iterations. -/
def corrLoop (env : CorrEnv) (inode : Nat) :
    Nat → Nat → (String × String) → (String × String) × List Event
  | _, 0, st => (st, [])
  | att, fuel + 1, st =>
    if (RangePidAddr env inode st (env.regs att)).1 ≠ "" then
      (RangePidAddr env inode st (env.regs att), [Event.rangeScan])
    else
      ((corrLoop env inode (att + 1) fuel (RangePidAddr env inode st (env.regs att))).1,
        Event.rangeScan :: Event.sleepMs 20 ::
          (corrLoop env inode (att + 1) fuel (RangePidAddr env inode st (env.regs att))).2)

/-- `func getPidByAddr(localAddr, remoteAddr string, isTCP6 bool) (pid
string, destAddr string)`: one inode lookup (error ⇒ return `("", "")`
immediately), then up to 3 registry scans via `corrLoop`, then
`DeletePidAddr(pid)` when a PID was found.  The returned trace records
the lookup, each scan, each sleep and the deletion. -/
def getPidByAddr (env : CorrEnv) (localAddr remoteAddr : String) (isTCP6 : Bool) :
    (String × String) × List Event :=
  match env.getInodeByAddrs localAddr remoteAddr isTCP6 with
  | none => (("", ""), [Event.inodeLookup])
  | some inode =>
    if (corrLoop env inode 0 3 ("", "")).1.1 ≠ "" then
      ((corrLoop env inode 0 3 ("", "")).1,
        (Event.inodeLookup :: (corrLoop env inode 0 3 ("", "")).2) ++
          [Event.deletePid (corrLoop env inode 0 3 ("", "")).1.1])
    else
      ((corrLoop env inode 0 3 ("", "")).1,
        Event.inodeLookup :: (corrLoop env inode 0 3 ("", "")).2)

/-- The registry after a `getPidByAddr` run with result `r`: the Go code
runs `if pid != "" { DeletePidAddr(pid) }` on the live registry `reg`. -/
def RegistryAfter (r : String × String) (reg : List (String × String)) :
    List (String × String) :=
  if r.1 ≠ "" then DeletePidAddr r.1 reg else reg

example :
    getPidByAddr
      { getInodeByAddrs := fun _ _ _ => some 5
        hasIncludeInode := fun _ _ => false
        regs := fun _ => [("9", "x:1")] } "l" "r" false =
      (("", ""),
        [Event.inodeLookup, Event.rangeScan, Event.sleepMs 20, Event.rangeScan,
          Event.sleepMs 20, Event.rangeScan, Event.sleepMs 20]) := by
  decide

example :
    getPidByAddr
      { getInodeByAddrs := fun _ _ _ => some 5
        hasIncludeInode := fun p _ => p == "9"
        regs := fun _ => [("8", "y:2"), ("9", "x:1")] } "l" "r" false =
      (("9", "x:1"), [Event.inodeLookup, Event.rangeScan, Event.deletePid ("9")]) := by
  decide

/-! ### Connection handling (`Local.HandleConn`)

Taken up after correlation: the correlation result `(pid, destAddr)` is an
input, the two fallible dials are oracles (`DialEnv`), and the observable
actions form an event trace.  The relay itself (the two `pipe` goroutines)
is modelled separately below; here it appears as a single `relayStart`
event followed by the two final `Close` calls. -/

/-- Observable actions of one `HandleConn` run (after correlation). -/
inductive HEvent
  | dialProxy (addr : String)
  | dialDirect (addr : String)
  | relayStart
  | closeConn
  | closeDest
deriving DecidableEq

/-- Dial oracles for one `HandleConn` run: whether `dialer.Dial` succeeds
and whether the plain `net.Dial` fallback would succeed. -/
structure DialEnv where
  proxyDialOk : Bool
  directDialOk : Bool

/-- Recognizer for the direct-dial fallback event. -/
def isDialDirect : HEvent → Bool
  | HEvent.dialDirect _ => true
  | _ => false

/-- `func (l *Local) HandleConn(conn net.Conn) error`, from the point where
the correlation result is in hand: empty pid or destAddr ⇒ close and fail;
nil dialer from `proxySelector` ⇒ close and fail; dial through the selected
dialer, and on failure retry once with a direct `net.Dial` if and only if
`l.selectMode == AutoSelectMode`; on any dial success run the relay and
close both connections, otherwise close the accepted connection.  Returns
`some errorMessage` on failure (Go `error`), `none` on success, plus the
action trace. -/
def HandleConn {D : Type} (l : Local D) (rnd : Nat) (pid destAddr : String)
    (env : DialEnv) : Option String × List HEvent :=
  if pid = "" ∨ destAddr = "" then
    (some ("cant find the pid and destAddr"), [HEvent.closeConn])
  else
    match proxySelector l rnd with
    | none => (some ("bad dialer"), [HEvent.closeConn])
    | some _ =>
      if env.proxyDialOk then
        (none, [HEvent.dialProxy destAddr, HEvent.relayStart, HEvent.closeConn,
          HEvent.closeDest])
      else if l.selectMode = AutoSelectMode then
        if env.directDialOk then
          (none, [HEvent.dialProxy destAddr, HEvent.dialDirect destAddr,
            HEvent.relayStart, HEvent.closeConn, HEvent.closeDest])
        else
          (some ("dial err"), [HEvent.dialProxy destAddr, HEvent.dialDirect destAddr,
            HEvent.closeConn])
      else
        (some ("dial err"), [HEvent.dialProxy destAddr, HEvent.closeConn])

/-! ### Relay engine (`pipe` and the tail of `HandleConn`)

The relay runs three concurrent units: the two `pipe` goroutines
(direction `false` = `pipe(conn, destConn, writeChan)`, direction
`true` = `pipe(destConn, conn, readChan)`) and the main `HandleConn`
goroutine that receives from both channels and then closes both
connections.  A run is any interleaving (a list of `Op`s) that preserves
each unit's program order and never receives from a channel before the
corresponding send.  Connections are identified by a `Bool`:
`false` = the accepted client connection `conn`, `true` = `destConn`. -/

/-- Primitive steps of the three relay goroutines.  `dir` identifies the
pipe (`false` = writeChan pipe, `true` = readChan pipe); `conn` identifies
the connection (`false` = `conn`, `true` = `destConn`). -/
inductive Op
  | copyDone (dir : Bool)
  | setDL (conn : Bool) (dir : Bool)
  | send (dir : Bool)
  | recv (dir : Bool)
  | closeC (conn : Bool)
deriving DecidableEq

/-- Program order of `func pipe(dst, src net.Conn, c chan int64)`:
`io.Copy(dst, src)` returns (source end-of-stream or error), then
`dst.SetDeadline(now)` and `src.SetDeadline(now)` with `now := time.Now()`
(an already-elapsed deadline on both connections), then `c <- n` reports
completion.  For the writeChan pipe (`dir = false`) `dst` is `conn` and
`src` is `destConn`; for the readChan pipe the roles swap. -/
def pipeOps (dir : Bool) : List Op :=
  [Op.copyDone dir, Op.setDL dir dir, Op.setDL (!dir) dir, Op.send dir]

/-- Program order of the tail of `HandleConn`: `<-writeChan`, `<-readChan`,
`conn.Close()`, `destConn.Close()`. -/
def mainOps : List Op :=
  [Op.recv false, Op.recv true, Op.closeC false, Op.closeC true]

/-- Which steps belong to the pipe goroutine of direction `dir`. -/
def isPipeOp (dir : Bool) : Op → Bool
  | Op.copyDone d => d == dir
  | Op.setDL _ d => d == dir
  | Op.send d => d == dir
  | _ => false

/-- Which steps belong to the main (`HandleConn`) goroutine. -/
def isMainOp : Op → Bool
  | Op.recv _ => true
  | Op.closeC _ => true
  | _ => false

/-- Channel discipline: in every prefix of the trace, a channel has been
received from at most as often as it has been sent on. -/
def chanOk (t : List Op) : Bool :=
  (List.range (t.length + 1)).all fun n =>
    ((t.take n).count (Op.recv false) ≤ (t.take n).count (Op.send false)) &&
    ((t.take n).count (Op.recv true) ≤ (t.take n).count (Op.send true))

/-- A complete run of one relay session: an interleaving of the two pipe
goroutines and the main goroutine (each unit's steps appear in program
order, nothing else appears) that respects the channel discipline. -/
def ValidRelayTrace (t : List Op) : Prop :=
  t.filter (isPipeOp false) = pipeOps false ∧
  t.filter (isPipeOp true) = pipeOps true ∧
  t.filter isMainOp = mainOps ∧
  chanOk t = true

instance : DecidablePred ValidRelayTrace := fun t => by
  unfold ValidRelayTrace; infer_instance

/-- The fully sequential interleaving, used as a concrete valid run. -/
def seqRelayTrace : List Op := pipeOps false ++ pipeOps true ++ mainOps

example : ValidRelayTrace seqRelayTrace := by decide

/-! ### Relay trace lemmas (C8) -/

/-- Filtering a prefix of a list yields a prefix of the filtered list. -/
theorem filter_take_eq_take_filter {α : Type} (p : α → Bool) :
    ∀ (t : List α) (n : Nat), ∃ m, (t.take n).filter p = (t.filter p).take m := by
  intro t
  induction t with
  | nil =>
    intro n
    exact ⟨0, by simp⟩
  | cons a t' ih =>
    intro n
    cases n with
    | zero => exact ⟨0, by simp⟩
    | succ k =>
      obtain ⟨m, hm⟩ := ih k
      by_cases hp : p a
      · exact ⟨m + 1, by simp [List.filter_cons, hp, hm]⟩
      · exact ⟨m, by simp [List.filter_cons, hp, hm]⟩

/-- The channel discipline, extracted: in every prefix, receives on a
channel never outnumber sends on it. -/
theorem chanOk_le (t : List Op) (hok : chanOk t = true) (n : Nat) (d : Bool) :
    (t.take n).count (Op.recv d) ≤ (t.take n).count (Op.send d) := by
  have hall := List.all_eq_true.mp hok
  by_cases hn : n ≤ t.length
  · have h2 := hall n (List.mem_range.mpr (by omega))
    simp only [Bool.and_eq_true, decide_eq_true_eq] at h2
    cases d
    · exact h2.1
    · exact h2.2
  · have hteq : t.take n = t := List.take_of_length_le (by omega)
    have h2 := hall t.length (List.mem_range.mpr (by omega))
    simp only [Bool.and_eq_true, decide_eq_true_eq, List.take_length] at h2
    rw [hteq]
    cases d
    · exact h2.1
    · exact h2.2

/-- Any prefix of the main goroutine's program order that contains a
`Close` call already contains both channel receives. -/
theorem mainOps_take_close (m : Nat) (c : Bool) (h : Op.closeC c ∈ mainOps.take m) :
    Op.recv false ∈ mainOps.take m ∧ Op.recv true ∈ mainOps.take m := by
  match m with
  | 0 => simp [mainOps] at h
  | 1 => simp [mainOps] at h
  | 2 => simp [mainOps] at h
  | m + 3 => exact ⟨by simp [mainOps], by simp [mainOps]⟩

/-- Any prefix of a pipe goroutine's program order that contains the
completion report contains the copy completion and both deadline sets. -/
theorem pipeOps_take_send (m : Nat) (d : Bool) (h : Op.send d ∈ (pipeOps d).take m) :
    Op.copyDone d ∈ (pipeOps d).take m ∧ Op.setDL d d ∈ (pipeOps d).take m ∧
      Op.setDL (!d) d ∈ (pipeOps d).take m := by
  match m with
  | 0 => simp [pipeOps] at h
  | 1 => simp [pipeOps] at h
  | 2 => simp [pipeOps] at h
  | 3 => simp [pipeOps] at h
  | m + 4 => exact ⟨by simp [pipeOps], by simp [pipeOps], by simp [pipeOps]⟩

/-- Any prefix of a pipe goroutine's program order that contains a
deadline set already contains the copy completion. -/
theorem pipeOps_take_setDL (m : Nat) (cn d : Bool) (h : Op.setDL cn d ∈ (pipeOps d).take m) :
    Op.copyDone d ∈ (pipeOps d).take m := by
  match m with
  | 0 => simp [pipeOps] at h
  | 1 => simp [pipeOps] at h
  | m + 2 => simp [pipeOps]

/-- Membership transfer from a trace prefix into the corresponding prefix
of one goroutine's program order, and back. -/
theorem mem_take_thread {p : Op → Bool} {t : List Op} {ops : List Op}
    (hf : t.filter p = ops) (n : Nat) :
    ∃ m, (∀ x, x ∈ t.take n → p x = true → x ∈ ops.take m) ∧
      (∀ x, x ∈ ops.take m → x ∈ t.take n) := by
  obtain ⟨m, hm⟩ := filter_take_eq_take_filter p t n
  rw [hf] at hm
  refine ⟨m, ?_, ?_⟩
  · intro x hx hpx
    rw [← hm]
    exact List.mem_filter.mpr ⟨hx, hpx⟩
  · intro x hx
    rw [← hm] at hx
    exact (List.mem_filter.mp hx).1

/-! ### Helper lemmas -/

/-- `proxySelector` on a `Local` whose mode is `AutoSelectMode`: SOCKS5 if
configured, else HTTP proxy, else the direct dialer. -/
theorem proxySelector_auto {D : Type} (l : Local D) (rnd : Nat)
    (hm : l.selectMode = AutoSelectMode) :
    proxySelector l rnd =
      (if l.socks5Dialer.isSome then l.socks5Dialer
       else if l.httpProxyDialer.isSome then l.httpProxyDialer
       else l.directDialer) := by
  unfold proxySelector
  rw [if_pos hm]

/-- An unrecognized mode string leaves the `Local` unchanged
(`SetSelectMode`'s `switch` has no `default:` case). -/
theorem SetSelectMode_invalid {D : Type} (l : Local D) (mode : String)
    (hm : mode ∉ ["auto", "random", "only_http_proxy", "only_socks5", "direct"]) :
    SetSelectMode l mode = l := by
  simp only [List.mem_cons, List.not_mem_nil, or_false, not_or] at hm
  obtain ⟨h1, h2, h3, h4, h5⟩ := hm
  unfold SetSelectMode
  rw [if_neg h1, if_neg h2, if_neg h3, if_neg h4, if_neg h5]

/-- If a no-match `corrLoop` run returns with an empty pid, its trace is
one registry scan followed by one 20ms sleep per granted attempt. -/
theorem corrLoop_nomatch_trace (env : CorrEnv) (inode : Nat) :
    ∀ (fuel att : Nat) (st : String × String),
      (corrLoop env inode att fuel st).1.1 = "" →
      (corrLoop env inode att fuel st).2 =
        (List.replicate fuel [Event.rangeScan, Event.sleepMs 20]).flatten := by
  intro fuel
  induction fuel with
  | zero => intro att st _; rfl
  | succ n ih =>
    intro att st hres
    by_cases hmatch : (RangePidAddr env inode st (env.regs att)).1 ≠ ""
    · rw [corrLoop, if_pos hmatch] at hres
      exact absurd hres hmatch
    · rw [corrLoop, if_neg hmatch] at hres ⊢
      dsimp only at hres ⊢
      rw [List.replicate_succ, List.flatten_cons, ih (att + 1) _ hres]
      rfl

/-- When the inode lookup succeeds, the returned `(pid, destAddr)` pair is
the result of the bounded retry loop in both branches of the final
deletion test. -/
theorem getPidByAddr_fst (env : CorrEnv) (la ra : String) (t6 : Bool) (inode : Nat)
    (hlk : env.getInodeByAddrs la ra t6 = some inode) :
    (getPidByAddr env la ra t6).1 = (corrLoop env inode 0 3 ("", "")).1 := by
  unfold getPidByAddr
  rw [hlk]
  by_cases hb : (corrLoop env inode 0 3 ("", "")).1.1 ≠ ""
  · simp only [if_pos hb]
  · simp only [if_neg hb]

/-- When the inode lookup succeeds and the retry loop ends with an empty
pid, `getPidByAddr` returns the loop result and no deletion happens. -/
theorem getPidByAddr_some_nomatch (env : CorrEnv) (la ra : String) (t6 : Bool) (inode : Nat)
    (hlk : env.getInodeByAddrs la ra t6 = some inode)
    (hloop : (corrLoop env inode 0 3 ("", "")).1.1 = "") :
    getPidByAddr env la ra t6 =
      ((corrLoop env inode 0 3 ("", "")).1,
        Event.inodeLookup :: (corrLoop env inode 0 3 ("", "")).2) := by
  unfold getPidByAddr
  rw [hlk]
  simp [hloop]

/-- When the inode lookup succeeds and the retry loop finds a pid, the
returned pair is the loop result and the trace ends with its deletion. -/
theorem getPidByAddr_some_match (env : CorrEnv) (la ra : String) (t6 : Bool) (inode : Nat)
    (hlk : env.getInodeByAddrs la ra t6 = some inode)
    (hloop : (corrLoop env inode 0 3 ("", "")).1.1 ≠ "") :
    getPidByAddr env la ra t6 =
      ((corrLoop env inode 0 3 ("", "")).1,
        (Event.inodeLookup :: (corrLoop env inode 0 3 ("", "")).2) ++
          [Event.deletePid (corrLoop env inode 0 3 ("", "")).1.1]) := by
  unfold getPidByAddr
  rw [hlk]
  simp only [if_pos hloop]

/-- `splitCh` always yields at least one field. -/
theorem splitCh_ne_nil (sep : Char) (l : List Char) : splitCh sep l ≠ [] := by
  induction l with
  | nil => simp [splitCh]
  | cons c rest ih =>
    unfold splitCh
    by_cases h : c = sep
    · simp [h]
    · rw [if_neg h]
      cases hs : splitCh sep rest with
      | nil => simp
      | cons f fs => simp

/-- A separator-free list is a single field. -/
theorem splitCh_no_sep (sep : Char) (l : List Char) (h : sep ∉ l) :
    splitCh sep l = [l] := by
  induction l with
  | nil => rfl
  | cons c rest ih =>
    simp only [List.mem_cons, not_or] at h
    obtain ⟨h1, h2⟩ := h
    unfold splitCh
    rw [if_neg (fun hc => h1 hc.symm), ih h2]

/-- Splitting distributes over a separator occurrence. -/
theorem splitCh_append (sep : Char) (a b : List Char) :
    splitCh sep (a ++ sep :: b) = splitCh sep a ++ splitCh sep b := by
  induction a with
  | nil => simp [splitCh]
  | cons c a' ih =>
    by_cases h : c = sep
    · subst h
      show splitCh c (c :: (a' ++ c :: b)) = splitCh c (c :: a') ++ splitCh c b
      simp only [splitCh, if_true]
      rw [ih]
      rfl
    · show splitCh sep (c :: (a' ++ sep :: b)) = splitCh sep (c :: a') ++ splitCh sep b
      simp only [splitCh]
      rw [if_neg h, if_neg h, ih]
      cases hs : splitCh sep a' with
      | nil => exact absurd hs (splitCh_ne_nil sep a')
      | cons f fs => rfl

/-- A list containing the separator splits into at least two fields. -/
theorem two_le_splitCh_length (sep : Char) (l : List Char) (h : sep ∈ l) :
    2 ≤ (splitCh sep l).length := by
  induction l with
  | nil => cases h
  | cons c rest ih =>
    unfold splitCh
    by_cases hc : c = sep
    · rw [if_pos hc]
      have h1 : 0 < (splitCh sep rest).length :=
        List.length_pos.mpr (splitCh_ne_nil sep rest)
      simp only [List.length_cons]
      omega
    · rw [if_neg hc]
      have hrest : sep ∈ rest := by
        rcases List.mem_cons.mp h with h1 | h2
        · exact absurd h1.symm hc
        · exact h2
      have h2 := ih hrest
      cases hs : splitCh sep rest with
      | nil => exact absurd hs (splitCh_ne_nil sep rest)
      | cons f fs =>
        rw [hs] at h2
        simp only [List.length_cons] at h2 ⊢
        omega

/-! ### C3 -/

/-- C3: decoding a record built from an IP that contains a colon, a
colon-free port and a colon-free pid (the IPv6 form, whose colon-split has
more than 3 fields) takes the last field as pid, the second-to-last as
port, and recovers the IP as the prefix of the line of length
`len(line) - 2 - len(pid) - len(port)`, reproducing the embedded IP
exactly: the result is `([ip]:port, pid)`. -/
theorem C3_ipv6_roundtrip (ip port pid : List Char)
    (hip : ':' ∈ ip) (hport : ':' ∉ port) (hpid : ':' ∉ pid) :
    decodeLine (ip ++ ':' :: (port ++ ':' :: pid)) =
      some (('[' :: ip) ++ (']' :: ':' :: port), pid) := by
  have hs : splitCh ':' (ip ++ ':' :: (port ++ ':' :: pid)) =
      splitCh ':' ip ++ [port, pid] := by
    rw [splitCh_append, splitCh_append, splitCh_no_sep _ _ hport,
      splitCh_no_sep _ _ hpid]
    rfl
  have hA : 2 ≤ (splitCh ':' ip).length := two_le_splitCh_length ':' ip hip
  have hlen : (splitCh ':' ip ++ [port, pid]).length = (splitCh ':' ip).length + 2 := by
    simp
  have hlinelen : (ip ++ ':' :: (port ++ ':' :: pid)).length =
      ip.length + port.length + pid.length + 2 := by
    simp
    omega
  simp only [decodeLine, hs, hlen]
  rw [if_neg (by omega), if_pos (by omega)]
  have hgd1 : (splitCh ':' ip ++ [port, pid]).getD ((splitCh ':' ip).length + 2 - 1) [] =
      pid := by
    rw [List.getD_append_right _ _ _ _ (by omega)]
    have : (splitCh ':' ip).length + 2 - 1 - (splitCh ':' ip).length = 1 := by omega
    rw [this]
    rfl
  have hgd2 : (splitCh ':' ip ++ [port, pid]).getD ((splitCh ':' ip).length + 2 - 2) [] =
      port := by
    rw [List.getD_append_right _ _ _ _ (by omega)]
    have : (splitCh ':' ip).length + 2 - 2 - (splitCh ':' ip).length = 0 := by omega
    rw [this]
    rfl
  rw [hgd1, hgd2]
  have hK : (ip ++ ':' :: (port ++ ':' :: pid)).length - 2 - pid.length - port.length =
      ip.length := by
    rw [hlinelen]
    omega
  rw [hK]
  rw [List.take_left ip (':' :: (port ++ ':' :: pid))]

/-- C3 witness: the spec's own example record `"::1:8080:4321"`. -/
theorem C3_ipv6_roundtrip_witness :
    (':' ∈ "::1".data ∧ ':' ∉ "8080".data ∧ ':' ∉ "4321".data) ∧
    decodeLine ("::1".data ++ ':' :: ("8080".data ++ ':' :: "4321".data)) =
      some (('[' :: "::1".data) ++ (']' :: ':' :: "8080".data), "4321".data) :=
  ⟨⟨by decide, by decide, by decide⟩,
    C3_ipv6_roundtrip ("::1".data) "8080".data ("4321".data) (by decide) (by decide) (by decide)⟩

/-! ### C1 -/

/-- C1 counterexample: with an invalid (never successfully set) mode
string and no SOCKS5 dialer configured, `select()` returns the direct
dialer (`some 0`), not `none` — refuting the claimed `only_socks5`
semantics for the invalid/unset case. -/
theorem C1_counterexample :
    (NewLocal (D := Nat) none none 0).socks5Dialer = none ∧
    (NewLocal (D := Nat) none none 0).directDialer = some 0 ∧
    proxySelector (SetSelectMode (NewLocal (D := Nat) none none 0) "bogus") 0 = some 0 := by
  decide

/-- C1 (amended): if the selection mode string is invalid or was never
set, `SetSelectMode` leaves the mode at its zero value `AutoSelectMode`,
so `select()` behaves with `auto` semantics: SOCKS5 if configured, else
HTTP proxy, else the direct dialer — never `none` for a
`NewLocal`-constructed `Local`. -/
theorem C1_invalid_mode_is_auto {D : Type} (s5 hp : Option D) (d : D)
    (mode : String) (rnd : Nat)
    (hm : mode ∉ ["auto", "random", "only_http_proxy", "only_socks5", "direct"]) :
    (SetSelectMode (NewLocal s5 hp d) mode).selectMode = AutoSelectMode ∧
    proxySelector (SetSelectMode (NewLocal s5 hp d) mode) rnd =
      (if s5.isSome then s5 else if hp.isSome then hp else some d) ∧
    (proxySelector (SetSelectMode (NewLocal s5 hp d) mode) rnd).isSome := by
  rw [SetSelectMode_invalid _ _ hm]
  refine ⟨rfl, ?_, ?_⟩
  · rw [proxySelector_auto _ _ rfl]
    simp [NewLocal]
  · rw [proxySelector_auto _ _ rfl]
    cases s5 <;> cases hp <;> simp [NewLocal]

/-- C1 witness: the amended statement at a concrete instance. -/
theorem C1_invalid_mode_is_auto_witness :
    "bogus" ∉ ["auto", "random", "only_http_proxy", "only_socks5", "direct"] ∧
    ((SetSelectMode (NewLocal (D := Nat) (some 3) none 0) "bogus").selectMode = AutoSelectMode ∧
      proxySelector (SetSelectMode (NewLocal (D := Nat) (some 3) none 0) "bogus") 0 =
        (if (some 3 : Option Nat).isSome then some 3
         else if (none : Option Nat).isSome then none else some 0) ∧
      (proxySelector (SetSelectMode (NewLocal (D := Nat) (some 3) none 0) "bogus") 0).isSome) :=
  ⟨by decide, C1_invalid_mode_is_auto (some 3) none 0 ("bogus") 0 (by decide)⟩

/-! ### C4 -/

/-- C4: `select()` never returns a dialer that was not configured: any
returned dialer is one of the three stored (possibly-nil) dialer fields;
in particular `only_socks5` with no SOCKS5 dialer yields `none`.  In
`auto` mode the result is SOCKS5 if configured, else HTTP, else the
direct dialer, hence never `none` when the direct dialer is present (as
`NewLocal` always makes it). -/
theorem C4_selector_never_unconfigured {D : Type} (l : Local D) (rnd : Nat) :
    (∀ d, proxySelector l rnd = some d →
      some d = l.socks5Dialer ∨ some d = l.httpProxyDialer ∨ some d = l.directDialer) ∧
    (l.selectMode = OnlySocks5Mode → l.socks5Dialer = none → proxySelector l rnd = none) ∧
    (l.selectMode = AutoSelectMode →
      proxySelector l rnd =
        (if l.socks5Dialer.isSome then l.socks5Dialer
         else if l.httpProxyDialer.isSome then l.httpProxyDialer
         else l.directDialer) ∧
      (l.directDialer.isSome → (proxySelector l rnd).isSome)) := by
  refine ⟨?_, ?_, ?_⟩
  · intro d hd
    unfold proxySelector at hd
    split_ifs at hd <;>
      first
        | exact Or.inl hd.symm
        | exact Or.inr (Or.inl hd.symm)
        | exact Or.inr (Or.inr hd.symm)
  · intro hmode hnil
    unfold proxySelector
    rw [hmode]
    simp [OnlySocks5Mode, AutoSelectMode, RandomSelectMode, hnil]
  · intro hmode
    refine ⟨proxySelector_auto l rnd hmode, ?_⟩
    intro hdir
    rw [proxySelector_auto l rnd hmode]
    split_ifs with hs hh
    · exact hs
    · exact hh
    · exact hdir

/-- C4 witness: the statement at a concrete `auto`-mode `Local`. -/
theorem C4_selector_never_unconfigured_witness :
    (∀ d, proxySelector (NewLocal (D := Nat) none (some 2) 0) 0 = some d →
      some d = (NewLocal (D := Nat) none (some 2) 0).socks5Dialer ∨
      some d = (NewLocal (D := Nat) none (some 2) 0).httpProxyDialer ∨
      some d = (NewLocal (D := Nat) none (some 2) 0).directDialer) ∧
    ((NewLocal (D := Nat) none (some 2) 0).selectMode = OnlySocks5Mode →
      (NewLocal (D := Nat) none (some 2) 0).socks5Dialer = none →
      proxySelector (NewLocal (D := Nat) none (some 2) 0) 0 = none) ∧
    ((NewLocal (D := Nat) none (some 2) 0).selectMode = AutoSelectMode →
      proxySelector (NewLocal (D := Nat) none (some 2) 0) 0 =
        (if (NewLocal (D := Nat) none (some 2) 0).socks5Dialer.isSome then
          (NewLocal (D := Nat) none (some 2) 0).socks5Dialer
         else if (NewLocal (D := Nat) none (some 2) 0).httpProxyDialer.isSome then
          (NewLocal (D := Nat) none (some 2) 0).httpProxyDialer
         else (NewLocal (D := Nat) none (some 2) 0).directDialer) ∧
      ((NewLocal (D := Nat) none (some 2) 0).directDialer.isSome →
        (proxySelector (NewLocal (D := Nat) none (some 2) 0) 0).isSome)) :=
  C4_selector_never_unconfigured (NewLocal (D := Nat) none (some 2) 0) 0

/-! ### C6, C9: correlator result and registry lemmas -/

/-- One unfolding step of `corrLoop`. -/
theorem corrLoop_succ (env : CorrEnv) (inode att n : Nat) (st : String × String) :
    corrLoop env inode att (n + 1) st =
      if (RangePidAddr env inode st (env.regs att)).1 ≠ "" then
        (RangePidAddr env inode st (env.regs att), [Event.rangeScan])
      else
        ((corrLoop env inode (att + 1) n (RangePidAddr env inode st (env.regs att))).1,
          Event.rangeScan :: Event.sleepMs 20 ::
            (corrLoop env inode (att + 1) n (RangePidAddr env inode st (env.regs att))).2) :=
  rfl

/-- A registry scan either leaves the captured state unchanged (no entry
matched) or returns one of the registry entries. -/
theorem RangePidAddr_cases (env : CorrEnv) (inode : Nat) (st : String × String) :
    ∀ reg : List (String × String),
      RangePidAddr env inode st reg = st ∨ RangePidAddr env inode st reg ∈ reg := by
  intro reg
  induction reg with
  | nil => exact Or.inl rfl
  | cons e rest ih =>
    cases e with
    | mk p a =>
      unfold RangePidAddr
      by_cases h : env.hasIncludeInode p inode
      · rw [if_pos h]
        exact Or.inr (List.mem_cons_self _ _)
      · rw [if_neg h]
        rcases ih with h1 | h2
        · exact Or.inl h1
        · exact Or.inr (List.mem_cons_of_mem _ h2)

/-- If every registry entry has a non-empty pid and address, the retry
loop started from the empty state ends either still empty or at an entry
with both components non-empty. -/
theorem corrLoop_wellformed (env : CorrEnv) (inode : Nat)
    (hreg : ∀ i, ∀ e ∈ env.regs i, e.1 ≠ "" ∧ e.2 ≠ "") :
    ∀ (fuel att : Nat),
      (corrLoop env inode att fuel ("", "")).1 = ("", "") ∨
      ((corrLoop env inode att fuel ("", "")).1.1 ≠ "" ∧
        (corrLoop env inode att fuel ("", "")).1.2 ≠ "") := by
  intro fuel
  induction fuel with
  | zero => intro att; exact Or.inl rfl
  | succ n ih =>
    intro att
    rcases RangePidAddr_cases env inode ("", "") (env.regs att) with hc | hc
    · rw [corrLoop_succ, hc]
      rw [if_neg (by simp)]
      dsimp only
      exact ih (att + 1)
    · have he := hreg att _ hc
      rw [corrLoop_succ, if_pos he.1]
      dsimp only
      exact Or.inr he

/-- With a constant registry, a successful retry loop returns one of the
registry's entries. -/
theorem corrLoop_match_mem (env : CorrEnv) (inode : Nat) (reg : List (String × String))
    (hconst : ∀ i, env.regs i = reg) :
    ∀ (fuel att : Nat) (st : String × String),
      st.1 = "" →
      (corrLoop env inode att fuel st).1.1 ≠ "" →
      (corrLoop env inode att fuel st).1 ∈ reg := by
  intro fuel
  induction fuel with
  | zero =>
    intro att st hst hne
    exact absurd hst hne
  | succ n ih =>
    intro att st hst hne
    by_cases hb : (RangePidAddr env inode st (env.regs att)).1 ≠ ""
    · rw [corrLoop_succ, if_pos hb] at hne ⊢
      dsimp only at hne ⊢
      rcases RangePidAddr_cases env inode st (env.regs att) with hc | hc
      · rw [hc] at hb
        exact absurd hst hb
      · rw [← hconst att]
        exact hc
    · rw [corrLoop_succ, if_neg hb] at hne ⊢
      dsimp only at hne ⊢
      exact ih (att + 1) _ (by simpa using hb) hne

/-! ### C6 -/

/-- The concrete environment of the C6 counterexample: the registry holds
an entry with an empty destination address, and its pid owns the resolved
inode. -/
def corrEnvPartial : CorrEnv :=
  { getInodeByAddrs := fun _ _ _ => some 7
    hasIncludeInode := fun _ _ => true
    regs := fun _ => [("123", "")] }

/-- C6 counterexample: with a registry entry whose address is empty, the
correlator returns `("123", "")` — pid populated, destination address
empty — refuting "both populated or both empty, regardless of the
contents of the registry". -/
theorem C6_counterexample :
    (getPidByAddr corrEnvPartial ("l") "r" false).1.1 ≠ "" ∧
    (getPidByAddr corrEnvPartial ("l") "r" false).1.2 = "" := by
  decide

/-- C6 (amended): provided every registry entry has a non-empty pid and a
non-empty address (which the FIFO decoder's address construction always
produces, and its pid field does whenever the record's pid field is
non-empty), every correlation result has pid and destination address
either both empty or both non-empty. -/
theorem C6_both_or_neither (env : CorrEnv) (la ra : String) (t6 : Bool)
    (hreg : ∀ i, ∀ e ∈ env.regs i, e.1 ≠ "" ∧ e.2 ≠ "") :
    ((getPidByAddr env la ra t6).1.1 = "" ∧ (getPidByAddr env la ra t6).1.2 = "") ∨
    ((getPidByAddr env la ra t6).1.1 ≠ "" ∧ (getPidByAddr env la ra t6).1.2 ≠ "") := by
  cases hlk : env.getInodeByAddrs la ra t6 with
  | none =>
    have h : getPidByAddr env la ra t6 = (("", ""), [Event.inodeLookup]) := by
      unfold getPidByAddr
      rw [hlk]
    rw [h]
    exact Or.inl ⟨rfl, rfl⟩
  | some inode =>
    rw [getPidByAddr_fst env la ra t6 inode hlk]
    rcases corrLoop_wellformed env inode hreg 3 0 with h | h
    · rw [h]
      exact Or.inl ⟨rfl, rfl⟩
    · exact Or.inr h

/-- C6 witness: the amended statement at a concrete well-formed
environment. -/
theorem C6_both_or_neither_witness :
    (∀ i, ∀ e ∈ (CorrEnv.mk (fun _ _ _ => some 5) (fun p _ => p == "9")
        (fun _ => [("9", "203.0.113.7:443")])).regs i, e.1 ≠ "" ∧ e.2 ≠ "") ∧
    (((getPidByAddr (CorrEnv.mk (fun _ _ _ => some 5) (fun p _ => p == "9")
        (fun _ => [("9", "203.0.113.7:443")])) "l" "r" false).1.1 = "" ∧
      (getPidByAddr (CorrEnv.mk (fun _ _ _ => some 5) (fun p _ => p == "9")
        (fun _ => [("9", "203.0.113.7:443")])) "l" "r" false).1.2 = "") ∨
    ((getPidByAddr (CorrEnv.mk (fun _ _ _ => some 5) (fun p _ => p == "9")
        (fun _ => [("9", "203.0.113.7:443")])) "l" "r" false).1.1 ≠ "" ∧
      (getPidByAddr (CorrEnv.mk (fun _ _ _ => some 5) (fun p _ => p == "9")
        (fun _ => [("9", "203.0.113.7:443")])) "l" "r" false).1.2 ≠ "")) :=
  ⟨fun _ e he => by
      simp only [List.mem_singleton] at he
      subst he
      exact ⟨by decide, by decide⟩,
    C6_both_or_neither _ ("l") "r" false (fun _ e he => by
      simp only [List.mem_singleton] at he
      subst he
      exact ⟨by decide, by decide⟩)⟩

/-! ### C9 -/

/-- C9: with a (constant) registry `reg`, when correlation finds a
matching PID the returned pair is one of the registry's entries, and the
subsequent `DeletePidAddr` removes exactly the entries carrying that PID,
leaving every other entry in place (in order); when no PID is matched,
the registry is left untouched. -/
theorem C9_removes_exactly_matched (env : CorrEnv) (reg : List (String × String))
    (la ra : String) (t6 : Bool) (hconst : ∀ i, env.regs i = reg) :
    ((getPidByAddr env la ra t6).1.1 ≠ "" →
      (getPidByAddr env la ra t6).1 ∈ reg ∧
      RegistryAfter (getPidByAddr env la ra t6).1 reg =
        reg.filter (fun e => e.1 != (getPidByAddr env la ra t6).1.1) ∧
      (∀ e ∈ reg, e.1 ≠ (getPidByAddr env la ra t6).1.1 →
        e ∈ RegistryAfter (getPidByAddr env la ra t6).1 reg) ∧
      (∀ e ∈ RegistryAfter (getPidByAddr env la ra t6).1 reg,
        e ∈ reg ∧ e.1 ≠ (getPidByAddr env la ra t6).1.1)) ∧
    ((getPidByAddr env la ra t6).1.1 = "" →
      RegistryAfter (getPidByAddr env la ra t6).1 reg = reg) := by
  constructor
  · intro hne
    have hmem : (getPidByAddr env la ra t6).1 ∈ reg := by
      cases hlk : env.getInodeByAddrs la ra t6 with
      | none =>
        have h : getPidByAddr env la ra t6 = (("", ""), [Event.inodeLookup]) := by
          unfold getPidByAddr
          rw [hlk]
        rw [h] at hne
        exact absurd rfl hne
      | some inode =>
        rw [getPidByAddr_fst env la ra t6 inode hlk] at hne ⊢
        exact corrLoop_match_mem env inode reg hconst 3 0 ("", "") rfl hne
    have hafter : RegistryAfter (getPidByAddr env la ra t6).1 reg =
        reg.filter (fun e => e.1 != (getPidByAddr env la ra t6).1.1) := by
      unfold RegistryAfter DeletePidAddr
      rw [if_pos hne]
    refine ⟨hmem, hafter, ?_, ?_⟩
    · intro e hin hneq
      rw [hafter]
      exact List.mem_filter.mpr ⟨hin, by simpa using hneq⟩
    · intro e hin
      rw [hafter] at hin
      have h2 := List.mem_filter.mp hin
      exact ⟨h2.1, by simpa using h2.2⟩
  · intro hz
    unfold RegistryAfter
    rw [if_neg (by simp [hz])]

/-- C9 witness: a concrete two-entry registry in which the second entry's
PID owns the inode; the matched entry is returned and removed, the other
entry survives. -/
theorem C9_removes_exactly_matched_witness :
    (∀ i, (CorrEnv.mk (fun _ _ _ => some 3) (fun p _ => p == "2")
        (fun _ => [("1", "198.51.100.3:80"), ("2", "198.51.100.4:81")])).regs i =
      [("1", "198.51.100.3:80"), ("2", "198.51.100.4:81")]) ∧
    ((getPidByAddr (CorrEnv.mk (fun _ _ _ => some 3) (fun p _ => p == "2")
        (fun _ => [("1", "198.51.100.3:80"), ("2", "198.51.100.4:81")])) "l" "r" false).1 =
      ("2", "198.51.100.4:81") ∧
      RegistryAfter ("2", "198.51.100.4:81")
        [("1", "198.51.100.3:80"), ("2", "198.51.100.4:81")] =
        [("1", "198.51.100.3:80")]) ∧
    ((getPidByAddr (CorrEnv.mk (fun _ _ _ => some 3) (fun p _ => p == "2")
        (fun _ => [("1", "198.51.100.3:80"), ("2", "198.51.100.4:81")])) "l" "r" false).1 ∈
      [("1", "198.51.100.3:80"), ("2", "198.51.100.4:81")] ∧
      RegistryAfter (getPidByAddr (CorrEnv.mk (fun _ _ _ => some 3) (fun p _ => p == "2")
        (fun _ => [("1", "198.51.100.3:80"), ("2", "198.51.100.4:81")])) "l" "r" false).1
        [("1", "198.51.100.3:80"), ("2", "198.51.100.4:81")] =
        [("1", "198.51.100.3:80"), ("2", "198.51.100.4:81")].filter
          (fun e => e.1 != (getPidByAddr (CorrEnv.mk (fun _ _ _ => some 3)
            (fun p _ => p == "2")
            (fun _ => [("1", "198.51.100.3:80"), ("2", "198.51.100.4:81")])) "l" "r"
              false).1.1)) :=
  ⟨fun _ => rfl,
    ⟨by decide, by decide⟩,
    ⟨((C9_removes_exactly_matched (CorrEnv.mk (fun _ _ _ => some 3) (fun p _ => p == "2")
        (fun _ => [("1", "198.51.100.3:80"), ("2", "198.51.100.4:81")]))
        [("1", "198.51.100.3:80"), ("2", "198.51.100.4:81")] "l" "r" false
        (fun _ => rfl)).1 (by decide)).1,
      ((C9_removes_exactly_matched (CorrEnv.mk (fun _ _ _ => some 3) (fun p _ => p == "2")
        (fun _ => [("1", "198.51.100.3:80"), ("2", "198.51.100.4:81")]))
        [("1", "198.51.100.3:80"), ("2", "198.51.100.4:81")] "l" "r" false
        (fun _ => rfl)).1 (by decide)).2.1⟩⟩

/-! ### C8 -/

/-- C8: in every valid relay run, a pipe direction sets the
already-elapsed deadline (on either connection) only after its own copy
has finished; its completion report on the channel comes after the copy
finished and after the deadline was set on both connections; and the
relay closes a connection only after both copy directions have reported
completion. -/
theorem C8_relay_shutdown_order (t : List Op) (h : ValidRelayTrace t) :
    (∀ n cn d, Op.setDL cn d ∈ t.take n → Op.copyDone d ∈ t.take n) ∧
    (∀ n d, Op.send d ∈ t.take n →
      Op.copyDone d ∈ t.take n ∧ (∀ cn, Op.setDL cn d ∈ t.take n)) ∧
    (∀ n c, Op.closeC c ∈ t.take n →
      Op.send false ∈ t.take n ∧ Op.send true ∈ t.take n) := by
  obtain ⟨hp0, hp1, hmain, hchan⟩ := h
  have hpd : ∀ d, t.filter (isPipeOp d) = pipeOps d := by
    intro d
    cases d
    · exact hp0
    · exact hp1
  refine ⟨?_, ?_, ?_⟩
  · intro n cn d hx
    obtain ⟨m, hto, hfrom⟩ := mem_take_thread (hpd d) n
    have h1 : Op.setDL cn d ∈ (pipeOps d).take m := hto _ hx (by simp [isPipeOp])
    exact hfrom _ (pipeOps_take_setDL m cn d h1)
  · intro n d hx
    obtain ⟨m, hto, hfrom⟩ := mem_take_thread (hpd d) n
    have h1 : Op.send d ∈ (pipeOps d).take m := hto _ hx (by simp [isPipeOp])
    obtain ⟨hc, hs1, hs2⟩ := pipeOps_take_send m d h1
    refine ⟨hfrom _ hc, ?_⟩
    intro cn
    by_cases hcd : cn = d
    · subst hcd
      exact hfrom _ hs1
    · have hcn : cn = !d := by
        cases cn <;> cases d <;> simp_all
      rw [hcn]
      exact hfrom _ hs2
  · intro n c hx
    obtain ⟨m, hto, hfrom⟩ := mem_take_thread hmain n
    have h1 : Op.closeC c ∈ mainOps.take m := hto _ hx (by simp [isMainOp])
    obtain ⟨hr0, hr1⟩ := mainOps_take_close m c h1
    have hrecv : ∀ dd, Op.recv dd ∈ mainOps.take m → Op.send dd ∈ t.take n := by
      intro dd hdd
      have hmem : Op.recv dd ∈ t.take n := hfrom _ hdd
      have hcnt : 0 < (t.take n).count (Op.recv dd) := List.count_pos_iff.mpr hmem
      have hle := chanOk_le t hchan n dd
      exact List.count_pos_iff.mp (lt_of_lt_of_le hcnt hle)
    exact ⟨hrecv false hr0, hrecv true hr1⟩

/-- C8 witness: the sequential interleaving is a valid run; the theorem
applies to it. -/
theorem C8_relay_shutdown_order_witness :
    ValidRelayTrace seqRelayTrace ∧
    ((∀ n cn d, Op.setDL cn d ∈ seqRelayTrace.take n →
        Op.copyDone d ∈ seqRelayTrace.take n) ∧
      (∀ n d, Op.send d ∈ seqRelayTrace.take n →
        Op.copyDone d ∈ seqRelayTrace.take n ∧
          (∀ cn, Op.setDL cn d ∈ seqRelayTrace.take n)) ∧
      (∀ n c, Op.closeC c ∈ seqRelayTrace.take n →
        Op.send false ∈ seqRelayTrace.take n ∧ Op.send true ∈ seqRelayTrace.take n)) :=
  ⟨by decide, C8_relay_shutdown_order seqRelayTrace (by decide)⟩

/-! ### C10 -/

/-- C10: in `random` mode with neither a SOCKS5 nor an HTTP dialer
configured, `select()` returns `none` (it never falls back to the
always-available direct dialer), so every accepted connection fails
locally: `HandleConn` returns an error, closes the accepted connection,
and never starts a relay. -/
theorem C10_random_unconfigured_fails {D : Type} (l : Local D) (rnd : Nat)
    (pid destAddr : String) (env : DialEnv)
    (hm : l.selectMode = RandomSelectMode)
    (hs : l.socks5Dialer = none) (hh : l.httpProxyDialer = none) :
    proxySelector l rnd = none ∧
    (HandleConn l rnd pid destAddr env).1.isSome ∧
    HEvent.closeConn ∈ (HandleConn l rnd pid destAddr env).2 ∧
    HEvent.relayStart ∉ (HandleConn l rnd pid destAddr env).2 := by
  have hps : proxySelector l rnd = none := by
    unfold proxySelector
    rw [hm]
    simp [RandomSelectMode, AutoSelectMode, hs, hh]
  refine ⟨hps, ?_⟩
  by_cases hc : pid = "" ∨ destAddr = ""
  · simp [HandleConn, hc]
  · simp [HandleConn, hc, hps]

/-- C10 witness: the statement at a concrete proxy-less `random`-mode
`Local`. -/
theorem C10_random_unconfigured_fails_witness :
    ((SetSelectMode (NewLocal (D := Nat) none none 0) "random").selectMode = RandomSelectMode ∧
      (SetSelectMode (NewLocal (D := Nat) none none 0) "random").socks5Dialer = none ∧
      (SetSelectMode (NewLocal (D := Nat) none none 0) "random").httpProxyDialer = none) ∧
    (proxySelector (SetSelectMode (NewLocal (D := Nat) none none 0) "random") 1 = none ∧
      (HandleConn (SetSelectMode (NewLocal (D := Nat) none none 0) "random") 1 ("42")
          "203.0.113.9:443" ⟨true, true⟩).1.isSome ∧
      HEvent.closeConn ∈ (HandleConn (SetSelectMode (NewLocal (D := Nat) none none 0) "random") 1
          "42" "203.0.113.9:443" ⟨true, true⟩).2 ∧
      HEvent.relayStart ∉ (HandleConn (SetSelectMode (NewLocal (D := Nat) none none 0) "random") 1
          "42" "203.0.113.9:443" ⟨true, true⟩).2) :=
  ⟨⟨by decide, by decide, by decide⟩,
    C10_random_unconfigured_fails _ 1 ("42") "203.0.113.9:443" ⟨true, true⟩
      (by decide) (by decide) (by decide)⟩

/-! ### C5 -/

/-- C5: after a successful correlation and dialer selection, if the dial
through the selected dialer fails then in `auto` mode exactly one direct
dial to the same destination is attempted (and if it also fails the
connection is closed with an error); in every other mode no direct
fallback happens and the connection is closed immediately with an
error. -/
theorem C5_auto_direct_fallback {D : Type} (l : Local D) (rnd : Nat)
    (pid destAddr : String) (env : DialEnv)
    (hpid : pid ≠ "") (haddr : destAddr ≠ "")
    (hsel : (proxySelector l rnd).isSome) (hfail : env.proxyDialOk = false) :
    (l.selectMode = AutoSelectMode →
      (HandleConn l rnd pid destAddr env).2.countP isDialDirect = 1 ∧
      HEvent.dialDirect destAddr ∈ (HandleConn l rnd pid destAddr env).2 ∧
      (env.directDialOk = false →
        (HandleConn l rnd pid destAddr env).1.isSome ∧
        (HandleConn l rnd pid destAddr env).2 =
          [HEvent.dialProxy destAddr, HEvent.dialDirect destAddr, HEvent.closeConn])) ∧
    (l.selectMode ≠ AutoSelectMode →
      (HandleConn l rnd pid destAddr env).2.countP isDialDirect = 0 ∧
      (HandleConn l rnd pid destAddr env).1.isSome ∧
      (HandleConn l rnd pid destAddr env).2 =
        [HEvent.dialProxy destAddr, HEvent.closeConn]) := by
  obtain ⟨d, hd⟩ := Option.isSome_iff_exists.mp hsel
  have hc : ¬(pid = "" ∨ destAddr = "") := by simp [hpid, haddr]
  constructor
  · intro hmode
    by_cases hdd : env.directDialOk
    · have hHC : HandleConn l rnd pid destAddr env =
          (none, [HEvent.dialProxy destAddr, HEvent.dialDirect destAddr,
            HEvent.relayStart, HEvent.closeConn, HEvent.closeDest]) := by
        simp [HandleConn, hc, hd, hfail, hmode, hdd]
      rw [hHC]
      refine ⟨?_, ?_, ?_⟩
      · simp [List.countP_cons, isDialDirect]
      · simp
      · intro h'
        simp [h'] at hdd
    · simp only [Bool.not_eq_true] at hdd
      have hHC : HandleConn l rnd pid destAddr env =
          (some ("dial err"), [HEvent.dialProxy destAddr, HEvent.dialDirect destAddr,
            HEvent.closeConn]) := by
        simp [HandleConn, hc, hd, hfail, hmode, hdd]
      rw [hHC]
      refine ⟨?_, ?_, fun _ => ⟨rfl, rfl⟩⟩
      · simp [List.countP_cons, isDialDirect]
      · simp
  · intro hmode
    have hHC : HandleConn l rnd pid destAddr env =
        (some ("dial err"), [HEvent.dialProxy destAddr, HEvent.closeConn]) := by
      simp [HandleConn, hc, hd, hfail, hmode]
    rw [hHC]
    refine ⟨?_, rfl, rfl⟩
    simp [List.countP_cons, isDialDirect]

/-- C5 witness: a concrete `auto`-mode `Local` whose proxy dial fails and
whose direct fallback also fails. -/
theorem C5_auto_direct_fallback_witness :
    (("42" : String) ≠ "" ∧ ("198.51.100.3:80" : String) ≠ "" ∧
      (proxySelector (SetSelectMode (NewLocal (D := Nat) (some 1) none 0) "auto") 0).isSome ∧
      (DialEnv.mk false false).proxyDialOk = false) ∧
    (((SetSelectMode (NewLocal (D := Nat) (some 1) none 0) "auto").selectMode = AutoSelectMode →
      (HandleConn (SetSelectMode (NewLocal (D := Nat) (some 1) none 0) "auto") 0 ("42")
          "198.51.100.3:80" ⟨false, false⟩).2.countP isDialDirect = 1 ∧
      HEvent.dialDirect ("198.51.100.3:80") ∈
        (HandleConn (SetSelectMode (NewLocal (D := Nat) (some 1) none 0) "auto") 0 ("42")
          "198.51.100.3:80" ⟨false, false⟩).2 ∧
      ((DialEnv.mk false false).directDialOk = false →
        (HandleConn (SetSelectMode (NewLocal (D := Nat) (some 1) none 0) "auto") 0 ("42")
            "198.51.100.3:80" ⟨false, false⟩).1.isSome ∧
        (HandleConn (SetSelectMode (NewLocal (D := Nat) (some 1) none 0) "auto") 0 ("42")
            "198.51.100.3:80" ⟨false, false⟩).2 =
          [HEvent.dialProxy ("198.51.100.3:80"), HEvent.dialDirect ("198.51.100.3:80"),
            HEvent.closeConn])) ∧
    ((SetSelectMode (NewLocal (D := Nat) (some 1) none 0) "auto").selectMode ≠ AutoSelectMode →
      (HandleConn (SetSelectMode (NewLocal (D := Nat) (some 1) none 0) "auto") 0 ("42")
          "198.51.100.3:80" ⟨false, false⟩).2.countP isDialDirect = 0 ∧
      (HandleConn (SetSelectMode (NewLocal (D := Nat) (some 1) none 0) "auto") 0 ("42")
          "198.51.100.3:80" ⟨false, false⟩).1.isSome ∧
      (HandleConn (SetSelectMode (NewLocal (D := Nat) (some 1) none 0) "auto") 0 ("42")
          "198.51.100.3:80" ⟨false, false⟩).2 =
        [HEvent.dialProxy ("198.51.100.3:80"), HEvent.closeConn])) :=
  ⟨⟨by decide, by decide, by decide, rfl⟩,
    C5_auto_direct_fallback (SetSelectMode (NewLocal (D := Nat) (some 1) none 0) "auto") 0
      "42" "198.51.100.3:80" ⟨false, false⟩ (by decide) (by decide) (by decide) rfl⟩

/-! ### C7 -/

/-- C7: when the inode lookup for the endpoint pair fails, the correlator
returns the empty result immediately: the trace is the single lookup
event — no registry scan and no sleep of any duration. -/
theorem C7_lookup_failure_fails_fast (env : CorrEnv) (la ra : String) (t6 : Bool)
    (hfail : env.getInodeByAddrs la ra t6 = none) :
    getPidByAddr env la ra t6 = (("", ""), [Event.inodeLookup]) ∧
    Event.rangeScan ∉ (getPidByAddr env la ra t6).2 ∧
    (∀ ms, Event.sleepMs ms ∉ (getPidByAddr env la ra t6).2) := by
  have h : getPidByAddr env la ra t6 = (("", ""), [Event.inodeLookup]) := by
    unfold getPidByAddr
    rw [hfail]
  refine ⟨h, ?_, ?_⟩
  · rw [h]; simp
  · intro ms; rw [h]; simp

/-- C7 witness: a concrete environment whose inode lookup fails. -/
theorem C7_lookup_failure_fails_fast_witness :
    (CorrEnv.mk (fun _ _ _ => none) (fun _ _ => true)
        (fun _ => [("42", "203.0.113.9:443")])).getInodeByAddrs ("l") "r" false = none ∧
    (getPidByAddr (CorrEnv.mk (fun _ _ _ => none) (fun _ _ => true)
        (fun _ => [("42", "203.0.113.9:443")])) "l" "r" false =
      (("", ""), [Event.inodeLookup]) ∧
      Event.rangeScan ∉ (getPidByAddr (CorrEnv.mk (fun _ _ _ => none) (fun _ _ => true)
        (fun _ => [("42", "203.0.113.9:443")])) "l" "r" false).2 ∧
      (∀ ms, Event.sleepMs ms ∉ (getPidByAddr (CorrEnv.mk (fun _ _ _ => none) (fun _ _ => true)
        (fun _ => [("42", "203.0.113.9:443")])) "l" "r" false).2)) :=
  ⟨rfl, C7_lookup_failure_fails_fast _ ("l") "r" false rfl⟩

/-! ### C2 -/

/-- The concrete environment of the C2 counterexample: the inode lookup
succeeds, but no registered PID ever owns the inode. -/
def corrEnvNoMatch : CorrEnv :=
  { getInodeByAddrs := fun _ _ _ => some 5
    hasIncludeInode := fun _ _ => false
    regs := fun _ => [("9", "203.0.113.7:443")] }

/-- C2 counterexample: in a full no-match run the inode lookup (step 1)
happens exactly once — not once per attempt — while the registry scan
(step 2) runs 3 times; moreover the 20ms sleep runs 3 times (after every
failed attempt, the last included), not twice ("between" attempts).  This
refutes the claim that steps 1 and 2 are both retried on each of the 3
attempts. -/
theorem C2_counterexample :
    (getPidByAddr corrEnvNoMatch ("127.0.0.1:50000") "127.0.0.1:2233" false).1 = ("", "") ∧
    (getPidByAddr corrEnvNoMatch ("127.0.0.1:50000") "127.0.0.1:2233" false).2.count
      Event.inodeLookup = 1 ∧
    ¬((getPidByAddr corrEnvNoMatch ("127.0.0.1:50000") "127.0.0.1:2233" false).2.count
      Event.inodeLookup = 3) ∧
    (getPidByAddr corrEnvNoMatch ("127.0.0.1:50000") "127.0.0.1:2233" false).2.count
      Event.rangeScan = 3 ∧
    (getPidByAddr corrEnvNoMatch ("127.0.0.1:50000") "127.0.0.1:2233" false).2.count
      (Event.sleepMs 20) = 3 := by
  decide

/-- C2 (amended): in every correlation run in which the inode lookup
succeeds but no registered PID is matched, the correlator performs the
inode lookup (step 1) once, retries only the registry iteration (step 2)
up to 3 attempts total, and sleeps 20 milliseconds after each
unsuccessful attempt (the final one included), before returning with an
empty PID. -/
theorem C2_retry_only_scans (env : CorrEnv) (la ra : String) (t6 : Bool) (inode : Nat)
    (hlk : env.getInodeByAddrs la ra t6 = some inode)
    (hempty : (getPidByAddr env la ra t6).1.1 = "") :
    (getPidByAddr env la ra t6).2 =
      [Event.inodeLookup, Event.rangeScan, Event.sleepMs 20, Event.rangeScan,
        Event.sleepMs 20, Event.rangeScan, Event.sleepMs 20] ∧
    (getPidByAddr env la ra t6).2.count Event.inodeLookup = 1 ∧
    (getPidByAddr env la ra t6).2.count Event.rangeScan = 3 ∧
    (getPidByAddr env la ra t6).2.count (Event.sleepMs 20) = 3 := by
  have hloop : (corrLoop env inode 0 3 ("", "")).1.1 = "" := by
    rw [getPidByAddr_fst env la ra t6 inode hlk] at hempty
    exact hempty
  have htr : (getPidByAddr env la ra t6).2 =
      [Event.inodeLookup, Event.rangeScan, Event.sleepMs 20, Event.rangeScan,
        Event.sleepMs 20, Event.rangeScan, Event.sleepMs 20] := by
    rw [getPidByAddr_some_nomatch env la ra t6 inode hlk hloop]
    dsimp only
    rw [corrLoop_nomatch_trace env inode 3 0 ("", "") hloop]
    rfl
  rw [htr]
  exact ⟨rfl, by decide, by decide, by decide⟩

/-- C2 witness: the amended statement at the concrete no-match
environment. -/
theorem C2_retry_only_scans_witness :
    (corrEnvNoMatch.getInodeByAddrs ("127.0.0.1:50000") "127.0.0.1:2233" false = some 5 ∧
      (getPidByAddr corrEnvNoMatch ("127.0.0.1:50000") "127.0.0.1:2233" false).1.1 = "") ∧
    ((getPidByAddr corrEnvNoMatch ("127.0.0.1:50000") "127.0.0.1:2233" false).2 =
      [Event.inodeLookup, Event.rangeScan, Event.sleepMs 20, Event.rangeScan,
        Event.sleepMs 20, Event.rangeScan, Event.sleepMs 20] ∧
      (getPidByAddr corrEnvNoMatch ("127.0.0.1:50000") "127.0.0.1:2233" false).2.count
        Event.inodeLookup = 1 ∧
      (getPidByAddr corrEnvNoMatch ("127.0.0.1:50000") "127.0.0.1:2233" false).2.count
        Event.rangeScan = 3 ∧
      (getPidByAddr corrEnvNoMatch ("127.0.0.1:50000") "127.0.0.1:2233" false).2.count
        (Event.sleepMs 20) = 3) :=
  ⟨⟨rfl, by decide⟩,
    C2_retry_only_scans corrEnvNoMatch ("127.0.0.1:50000") "127.0.0.1:2233" false 5 rfl
      (by decide)⟩

end Graftcp
